import Mathlib

/-!
Verification of the proximity-based provider discovery subsystem of the
AI-clinic app: ZIP geocoding, great-circle distance, multi-source search
orchestration, result normalization, radius filtering/sorting, pagination,
and selection carry-forward.  The definitions below are a shallow embedding
of pages/2_find_a_doctor.py and pages/6_labs_nearby.py; external services
(pgeocode, the NPI registry, Google Places) appear as explicit oracle
parameters, Python floats appear as rationals (reals for the trigonometric
distance), and Python exceptions appear as Except values.
-/

namespace Clinic

/-- One coordinate field of a pgeocode record as the Python code observes it:
the float(...) conversion may raise (caught by the try block), may yield NaN,
or may yield a finite value. -/
inductive CoordVal where
  | convFails
  | nanVal
  | finite (q : ℚ)
deriving DecidableEq

/-- Whether the coordinate converted to a finite float. -/
def CoordVal.isFiniteVal : CoordVal → Bool
  | .finite _ => true
  | _ => false

/-- Outcome of the external query_postal_code call: the call itself may raise,
or it returns a record carrying latitude, longitude and state_code (none
models a missing or None state_code). -/
inductive PGOutcome where
  | raises
  | record (lat lon : CoordVal) (state_code : Option String)
deriving DecidableEq

/-- ASCII whitespace, as stripped by the Python str.strip method. -/
def isPySpace (c : Char) : Bool :=
  c = ' ' || c = '\t' || c = '\n' || c = '\r' || c = '\x0b' || c = '\x0c'

/-- Python str.strip(): drop leading and trailing whitespace. -/
def pyStrip (s : String) : String :=
  String.mk (((s.data.dropWhile isPySpace).reverse.dropWhile isPySpace).reverse)

/-- Lower-case one ASCII character (the Python str.lower method on the
ASCII letters appearing in the pipeline). -/
def lowerChar (c : Char) : Char :=
  if 'A' ≤ c && c ≤ 'Z' then Char.ofNat (c.toNat + 32) else c

/-- Python str.lower() on ASCII strings. -/
def pyLower (s : String) : String := String.mk (s.data.map lowerChar)

/-- Python string comparison: lexicographic by code point, with a proper
prefix smaller than its extensions. -/
def strLtChars : List Char → List Char → Bool
  | [], [] => false
  | [], _ :: _ => true
  | _ :: _, [] => false
  | a :: as, b :: bs =>
    if a < b then true else if b < a then false else strLtChars as bs

/-- Python string less-than on the underlying character data. -/
def pyStrLt (a b : String) : Bool := strLtChars a.data b.data

/-- geocode_zip of pages/2_find_a_doctor.py, lines 39-48.  The
query_postal_code call sits outside the try block, so an exception raised by
the lookup itself propagates (modelled as .error); the try block covers the
coordinate conversion and the NaN check, which degrade to None. -/
def geocode_zip (pg : String → PGOutcome) (z : String) :
    Except Unit (Option (ℚ × ℚ × String)) :=
  match pg z with
  | .raises => .error ()
  | .record lat lon sc =>
    match lat, lon with
    | .finite la, .finite lo => .ok (some (la, lo, pyStrip (sc.getD "")))
    | _, _ => .ok none

/-- math.radians: degrees to radians. -/
noncomputable def radians (x : ℝ) : ℝ := x * Real.pi / 180

/-- miles of pages/2_find_a_doctor.py, lines 50-56 (identical to
haversine_miles of pages/6_labs_nearby.py, lines 57-63): haversine
great-circle distance on an Earth radius of 3958.8 miles. -/
noncomputable def miles (lat1 lon1 lat2 lon2 : ℝ) : ℝ :=
  let r : ℝ := 3958.8
  let phi1 := radians lat1
  let phi2 := radians lat2
  let dphi := radians (lat2 - lat1)
  let dlmb := radians (lon2 - lon1)
  let a := Real.sin (dphi / 2) ^ 2 +
    Real.cos phi1 * Real.cos phi2 * Real.sin (dlmb / 2) ^ 2
  2 * r * Real.arcsin (Real.sqrt a)

/-- Python string truthiness fallback, a or b for an optional string a:
a present, non-empty string wins, otherwise b. -/
def orElseStr (a : Option String) (b : String) : String :=
  match a with
  | some s => if s = "" then b else s
  | none => b

/-- The basic block of an NPI registry record (missing keys are none; a key
present with an empty-string value is some ""). -/
structure NPIBasic where
  first_name : Option String
  last_name : Option String
  organization_name : Option String
deriving DecidableEq

/-- One entry of the addresses list of an NPI registry record. -/
structure NPIAddress where
  address_purpose : Option String
  postal_code : Option String
  telephone_number : Option String
  address_1 : Option String
  address_2 : Option String
  city : Option String
  state : Option String
deriving DecidableEq

/-- One entry of the taxonomies list of an NPI registry record. -/
structure NPITaxonomy where
  primary : Bool
  desc : Option String
  code : Option String
deriving DecidableEq

/-- A raw NPI registry result record (the fields the pipeline reads). -/
structure NPIRecord where
  number : Option String
  basic : NPIBasic
  addresses : List NPIAddress
  taxonomies : List NPITaxonomy
deriving DecidableEq

/-- The address with all fields absent, standing for the empty dict default. -/
def emptyAddress : NPIAddress := ⟨none, none, none, none, none, none, none⟩

/-- Lines 160-161: the first address tagged as the location address, else the
first address of the list, else the empty dict. -/
def pickLoc (addrs : List NPIAddress) : NPIAddress :=
  match addrs.find? (fun a => pyLower (a.address_purpose.getD "") = "location") with
  | some a => a
  | none => addrs.headD emptyAddress

/-- Line 162: the postal code of the chosen address truncated to 5 chars. -/
def candZip (rec : NPIRecord) : String :=
  ((pickLoc rec.addresses).postal_code.getD "").take 5

/-- Lines 171-173: the taxonomy flagged primary, else the first one. -/
def primaryTax (ts : List NPITaxonomy) : Option NPITaxonomy :=
  match ts.find? (fun t => t.primary) with
  | some t => some t
  | none => ts.head?

/-- Line 181: primary taxonomy desc, else its code, else the empty string. -/
def taxonomyOf (ts : List NPITaxonomy) : String :=
  let pt := primaryTax ts
  orElseStr (pt.bind (fun t => t.desc)) (orElseStr (pt.bind (fun t => t.code)) "")

/-- Lines 168-169 and 182: phone of the chosen address, else the first
non-empty phone in the address list, else the empty string. -/
def phoneOf (loc : NPIAddress) (addrs : List NPIAddress) : String :=
  let lp := loc.telephone_number.getD ""
  if lp ≠ "" then lp
  else
    match addrs.find? (fun a => (a.telephone_number.getD "") ≠ "") with
    | some a => a.telephone_number.getD ""
    | none => ""

/-- Lines 183-184: the assembled display address string. -/
def addressOf (loc : NPIAddress) (zip5 : String) : String :=
  pyStrip ((loc.address_1.getD "") ++ " " ++ (loc.address_2.getD "") ++ ", " ++
    (loc.city.getD "") ++ ", " ++ (loc.state.getD "") ++ " " ++ zip5)

/-- Lines 175-176: assembled first+last name if non-blank after stripping,
else the organization_name value, with the placeholder used only when the
organization_name key is absent (dict get with a default). -/
def displayName (b : NPIBasic) : String :=
  let nm := pyStrip ((b.first_name.getD "") ++ " " ++ (b.last_name.getD ""))
  if nm ≠ "" then nm else b.organization_name.getD "(Provider)"

/-- Python round() applied to a rational q: nearest integer, ties to the
even one.  The fractional part of q is r over den with r the numerator
remainder, so the half comparisons are the integer comparisons of 2 times r
against den. -/
def pyRoundInt (q : ℚ) : ℤ :=
  let n := ⌊q⌋
  let r := q.num - n * (q.den : ℤ)
  if 2 * r < (q.den : ℤ) then n
  else if (q.den : ℤ) < 2 * r then n + 1
  else if 2 ∣ n then n else n + 1

/-- round(x, 1): round to one decimal place.  The scaling by 10 is written
on the numerator (divInt of 10 times num over den equals q times 10). -/
def round10 (q : ℚ) : ℚ :=
  Rat.divInt (pyRoundInt (Rat.divInt (q.num * 10) (q.den : ℤ))) 10

/-- The canonical normalized candidate row built at lines 178-187. -/
structure Row where
  name : String
  npi : Option String
  taxonomy : String
  phone : String
  address : String
  zip : String
  distance_mi : Option ℚ
deriving DecidableEq

/-- Transport failures of the registry source: an HTTP error status raised by
raise_for_status, or a requests-level failure. -/
inductive SrcErr where
  | httpError
  | reqError
deriving DecidableEq

/-- Hard failures that can escape the orchestrator. -/
inductive OrchErr where
  | geoRaise
  | src (e : SrcErr)
deriving DecidableEq

/-- Outcome of one NPI registry HTTP query (the results list is
data.get("results") or []). -/
inductive NPIOutcome where
  | fail (e : SrcErr)
  | ok (results : List NPIRecord)
deriving DecidableEq

/-- npi_search_state, lines 124-137: performs the HTTP query and lets
transport errors propagate (raise_for_status). -/
def npi_search_state (fetch : String → String → String → NPIOutcome)
    (tax st enum : String) : Except OrchErr (List NPIRecord) :=
  match fetch tax st enum with
  | .fail e => .error (.src e)
  | .ok rs => .ok rs

/-- Lines 164-166: the candidate coordinates, resolved through geocode_zip
when the candidate ZIP is non-empty; the abstract exact-distance oracle d
stands for the transcendental miles function on these coordinates. -/
def resolveLatLon (pg : String → PGOutcome) (zip5 : String) :
    Except OrchErr (Option (ℚ × ℚ × String)) :=
  if zip5 ≠ "" then
    match geocode_zip pg zip5 with
    | .error _ => .error .geoRaise
    | .ok v => .ok v
  else .ok none

/-- The row built from one record, lines 178-187 (given the resolved
candidate coordinates). -/
def buildRow (d : ℚ → ℚ → ℚ → ℚ → ℚ) (uLat uLon : ℚ) (rec : NPIRecord)
    (latlon : Option (ℚ × ℚ × String)) : Row :=
  let loc := pickLoc rec.addresses
  let zip5 := candZip rec
  let dist : Option ℚ := latlon.map (fun p => d uLat uLon p.1 p.2.1)
  { name := displayName rec.basic
    npi := rec.number
    taxonomy := taxonomyOf rec.taxonomies
    phone := phoneOf loc rec.addresses
    address := addressOf loc zip5
    zip := zip5
    distance_mi := dist.map round10 }

/-- One iteration of the row-building loop, lines 157-187: resolve the
candidate ZIP through geocode_zip (whose own raise propagates) and build
the row with the rounded oracle distance. -/
def normalizeRecord (pg : String → PGOutcome) (d : ℚ → ℚ → ℚ → ℚ → ℚ)
    (uLat uLon : ℚ) (rec : NPIRecord) : Except OrchErr Row :=
  match resolveLatLon pg (candZip rec) with
  | .error e => .error e
  | .ok latlon => .ok (buildRow d uLat uLon rec latlon)

/-- Prepend a normalized row to an accumulated row list, propagating the
first raised error (the sequencing of the row-building loop). -/
def consRow (x : Except OrchErr Row) (acc : Except OrchErr (List Row)) :
    Except OrchErr (List Row) :=
  match x with
  | .error e => .error e
  | .ok row =>
    match acc with
    | .error e => .error e
    | .ok rows => .ok (row :: rows)

/-- The inner for loop of lines 156-187: normalize the records in order,
stopping at the first raised error. -/
def mapRows (pg : String → PGOutcome) (d : ℚ → ℚ → ℚ → ℚ → ℚ)
    (uLat uLon : ℚ) : List NPIRecord → Except OrchErr (List Row)
  | [] => .ok []
  | rec :: rest => consRow (normalizeRecord pg d uLat uLon rec) (mapRows pg d uLat uLon rest)

/-- One source visit, lines 151-187: fetch the raw results for one
enumeration type; none signals an empty result list (the loop continues),
some carries the normalized rows of a non-empty result list. -/
def sourceRows (pg : String → PGOutcome) (fetch : String → String → String → NPIOutcome)
    (d : ℚ → ℚ → ℚ → ℚ → ℚ) (uLat uLon : ℚ) (st spec enum : String) :
    Except OrchErr (Option (List Row)) :=
  match npi_search_state fetch spec st enum with
  | .error e => .error e
  | .ok results =>
    if results.isEmpty then .ok none
    else
      match mapRows pg d uLat uLon results with
      | .error e => .error e
      | .ok rows => .ok (some rows)

/-- The source loop of lines 148-190: try each enumeration type in order,
skip sources with no raw results, extend the accumulator, and break as soon
as it is non-empty. -/
def gatherHits (pg : String → PGOutcome) (fetch : String → String → String → NPIOutcome)
    (d : ℚ → ℚ → ℚ → ℚ → ℚ) (uLat uLon : ℚ) (st spec : String) :
    List String → List Row → Except OrchErr (List Row)
  | [], acc => .ok acc
  | enum :: rest, acc =>
    match sourceRows pg fetch d uLat uLon st spec enum with
    | .error e => .error e
    | .ok none => gatherHits pg fetch d uLat uLon st spec rest acc
    | .ok (some rows) =>
      if (acc ++ rows).isEmpty then gatherHits pg fetch d uLat uLon st spec rest (acc ++ rows)
      else .ok (acc ++ rows)

/-- The sort key distance component: missing distances become 1e9
(line 193). -/
def sortKeyD (x : Row) : ℚ := x.distance_mi.getD 1000000000

/-- Lexicographic comparison on the Python sort key tuple
(distance-or-1e9, name). -/
def rowLE (x y : Row) : Bool :=
  decide (sortKeyD x < sortKeyD y) ||
    (decide (sortKeyD x = sortKeyD y) &&
      (pyStrLt x.name y.name || decide (x.name = y.name)))

/-- The comparison of line 193 as a relation. -/
def rowLe (x y : Row) : Prop := rowLE x y = true

instance : DecidableRel rowLe := fun x y => inferInstanceAs (Decidable (rowLE x y = true))

/-- The stable ascending sort by (distance-or-1e9, name) of line 193,
rendered as stable insertion sort on the sort-key comparison. -/
def sortRows (l : List Row) : List Row := l.insertionSort rowLe

/-- Line 192: the within-radius test compares the stored (rounded) distance
to the radius; rows with a missing distance never pass. -/
def withinRadius (radius : ℚ) (p : Row) : Bool :=
  match p.distance_mi with
  | some dm => decide (dm ≤ radius)
  | none => false

/-- Lines 192-194: filter to the radius, sort the filtered list, and fall
back to the raw accumulated list when the filtered list is empty. -/
def chooseSet (radius : ℚ) (all_hits : List Row) : List Row :=
  let in_radius := sortRows (all_hits.filter (withinRadius radius))
  if in_radius.isEmpty then all_hits else in_radius

/-- The meta dict returned by the orchestrator: either the failure-reason
shape of lines 143 and 146, or the state/total_raw shape of line 194.  It
carries no field recording whether the radius fallback fired. -/
inductive SearchMeta where
  | reason (s : String)
  | stats (state : String) (total_raw : Nat)
deriving DecidableEq

/-- search_radius_by_state_then_filter, lines 139-194. -/
def search_radius_by_state_then_filter (pg : String → PGOutcome)
    (fetch : String → String → String → NPIOutcome) (d : ℚ → ℚ → ℚ → ℚ → ℚ)
    (user_zip : String) (radius : ℚ) (specialty_text : String) :
    Except OrchErr (List Row × SearchMeta) :=
  match geocode_zip pg user_zip with
  | .error _ => .error .geoRaise
  | .ok none => .ok ([], .reason "Could not geolocate ZIP.")
  | .ok (some (uLat, uLon, st)) =>
    if st = "" then .ok ([], .reason "Could not infer state from ZIP.")
    else
      match gatherHits pg fetch d uLat uLon st specialty_text ["NPI-1", "NPI-2"] [] with
      | .error e => .error e
      | .ok all_hits => .ok (chooseSet radius all_hits, .stats st all_hits.length)

/-- Lines 255-268: index 0 is the no-selection sentinel; a non-zero index
stores element idx-1 of the providers list, unchanged. -/
def selectProvider (providers : List Row) (idx : Nat) : Option Row :=
  if idx = 0 then none else providers[idx - 1]?

/-- The nested opening_hours object of a Google Places raw result. -/
structure OpeningHours where
  open_now : Option Bool
deriving DecidableEq

/-- A raw Google Places nearby-search result record, pages/6_labs_nearby.py
(the fields normalize_google_place reads; the derived maps URL is display
glue and not part of the ranking pipeline). -/
structure PlaceRaw where
  place_id : Option String
  name : Option String
  lat : Option ℚ
  lng : Option ℚ
  vicinity : Option String
  formatted_address : Option String
  opening_hours : Option OpeningHours
deriving DecidableEq

/-- The normalized lab item of lines 192-199. -/
structure LabItem where
  place_id : Option String
  name : String
  address : String
  distance_mi : Option ℚ
  open_now : Option Bool
deriving DecidableEq

/-- normalize_google_place, lines 179-199: name falls back to the
placeholder on a missing or empty raw name; the distance is the rounded
haversine value (abstract oracle d on the supplied coordinates) and is
absent when either raw coordinate is missing. -/
def normalize_google_place (d : ℚ → ℚ → ℚ → ℚ → ℚ) (p : PlaceRaw)
    (lat0 lon0 : ℚ) : LabItem :=
  let nm := orElseStr p.name "(Lab)"
  let dist : Option ℚ :=
    match p.lat, p.lng with
    | some plat, some plon => some (round10 (d plat plon lat0 lon0))
    | _, _ => none
  { place_id := p.place_id
    name := nm
    address := orElseStr p.vicinity (orElseStr p.formatted_address "")
    distance_mi := dist
    open_now := (p.opening_hours.getD ⟨none⟩).open_now }

/-- One page of the Google Places nearby response: a results list and an
optional continuation token (a missing or falsy token is none). -/
structure PlacesResp where
  results : List PlaceRaw
  next_page_token : Option String

/-- The while loop of places_nearby_labs, lines 122-135, on the remaining
page budget.  Returns (accumulated results, pages fetched, sleeps
performed); a sleep happens exactly before each request issued with a
continuation token. -/
def placesLoop (fetch : Option String → PlacesResp) :
    Nat → Option String → List PlaceRaw × Nat × Nat
  | 0, _ => ([], 0, 0)
  | rem + 1, token =>
    let sl0 : Nat := if token.isSome then 1 else 0
    let resp := fetch token
    match resp.next_page_token with
    | none => (resp.results, 1, sl0)
    | some t =>
      if rem = 0 then (resp.results, 1, sl0)
      else
        let r := placesLoop fetch rem (some t)
        (resp.results ++ r.1, r.2.1 + 1, sl0 + r.2.2)

/-- places_nearby_labs, lines 109-135: paginated nearby search with a fixed
maximum page count (3 in the source). -/
def places_nearby_labs (fetch : Option String → PlacesResp) (max_pages : Nat) :
    List PlaceRaw × Nat × Nat :=
  placesLoop fetch max_pages none

/-- The continuation token fed to the i-th page request (0-based): none for
the first page, then the token of the previous response. -/
def pageTok (fetch : Option String → PlacesResp) : Nat → Option String
  | 0 => none
  | i + 1 => (fetch (pageTok fetch i)).next_page_token

/-! Concrete oracle environments used to instantiate the theorems. -/

/-- A geocoder whose underlying lookup always raises. -/
def pgRaises : String → PGOutcome := fun _ => .raises

/-- A geocoder table: the origin ZIP 33351 maps to (26, -80) in FL; three
candidate ZIPs map to rows whose latitude encodes an intended distance; any
other code (such as 00000) yields the unmapped NaN row. -/
def pgTest : String → PGOutcome := fun z =>
  if z = "33351" then .record (.finite 26) (.finite (-80)) (some "FL")
  else if z = "11111" then .record (.finite (Rat.divInt 7 2)) (.finite 0) (some "FL")
  else if z = "22222" then .record (.finite 12) (.finite 0) (some "FL")
  else if z = "44444" then .record (.finite (Rat.divInt 7 2)) (.finite 0) (some "FL")
  else .record .nanVal .nanVal none

/-- A distance oracle returning the latitude of the second point, so the
tables above fully determine each candidate distance. -/
def dLat : ℚ → ℚ → ℚ → ℚ → ℚ := fun _ _ la _ => la

/-- A distance oracle constantly 25.04 miles. -/
def d2504 : ℚ → ℚ → ℚ → ℚ → ℚ := fun _ _ _ _ => Rat.divInt 2504 100

/-- A record with only a first name and a location address with a ZIP. -/
def recNamed (fn z : String) : NPIRecord :=
  ⟨none, ⟨some fn, none, none⟩, [⟨some "location", some z, none, none, none, none, none⟩], []⟩

/-- A record with only a first name and no address at all. -/
def recNoZip (fn : String) : NPIRecord :=
  ⟨none, ⟨some fn, none, none⟩, [], []⟩

/-- A record whose basic block carries organization_name present but empty,
and blank person names. -/
def recOrgEmpty : NPIRecord := ⟨none, ⟨none, none, some ""⟩, [], []⟩

/-- Source oracle for the radius-fallback scenario: NPI-1 yields two records
with no resolvable location (so no distance), in the order B then A. -/
def fetchFallback : String → String → String → NPIOutcome := fun _ _ enum =>
  if enum = "NPI-1" then .ok [recNoZip "B", recNoZip "A"] else .ok []

/-- Source oracle whose NPI-1 records all land within radius, with the same
state and raw count as the fallback scenario. -/
def fetchWithin : String → String → String → NPIOutcome := fun _ _ enum =>
  if enum = "NPI-1" then .ok [recNamed "B" "22222", recNamed "A" "11111"] else .ok []

/-- Source oracle for the sort scenario: NPI-1 yields B(12.0), A(3.5),
C(missing distance), D(3.5); NPI-2 would yield a different record. -/
def fetchSort : String → String → String → NPIOutcome := fun _ _ enum =>
  if enum = "NPI-1" then
    .ok [recNamed "B" "22222", recNamed "A" "11111", recNoZip "C", recNamed "D" "44444"]
  else .ok [recNamed "Z" "22222"]

/-- Source oracle whose NPI-1 query fails with an HTTP error status. -/
def fetchHttpFail : String → String → String → NPIOutcome := fun _ _ enum =>
  if enum = "NPI-1" then .fail .httpError else .ok [recNamed "Z" "22222"]

/-- A places fetch: the first page returns one result and a token, the
second page returns one result and no token. -/
def labA : PlaceRaw := ⟨some "a", some "Lab A", some 1, some 1, none, none, none⟩

/-- Second concrete raw place. -/
def labB : PlaceRaw := ⟨some "b", some "Lab B", some 2, some 2, none, none, none⟩

/-- Places oracle stopping after two pages. -/
def fetchPages2 : Option String → PlacesResp := fun t =>
  match t with
  | none => ⟨[labA], some "tok1"⟩
  | some _ => ⟨[labB], none⟩

instance {ε α : Type} [DecidableEq ε] [DecidableEq α] : DecidableEq (Except ε α) :=
  fun a b =>
    match a, b with
    | .error e1, .error e2 =>
      if h : e1 = e2 then .isTrue (by rw [h]) else
        .isFalse (by intro hh; injection hh; contradiction)
    | .error _, .ok _ => .isFalse (fun hh => Except.noConfusion hh)
    | .ok _, .error _ => .isFalse (fun hh => Except.noConfusion hh)
    | .ok a1, .ok a2 =>
      if h : a1 = a2 then .isTrue (by rw [h]) else
        .isFalse (by intro hh; injection hh; contradiction)

/-- The normalized row of a record with no resolvable address. -/
def rowNZ (nm : String) : Row := ⟨nm, none, "", "", ", ,", "", none⟩

/-- The normalized row of a record with a bare location address holding only
a ZIP, at the given rounded distance. -/
def rowAt (nm z : String) (q : ℚ) : Row := ⟨nm, none, "", "", ", ,  " ++ z, z, some q⟩

end Clinic

namespace Clinic

/-- Squares of sines of half-angles are insensitive to the sign of the
angle difference. -/
theorem sin_radians_neg_half_sq (x : ℝ) :
    Real.sin (radians (-x) / 2) ^ 2 = Real.sin (radians x / 2) ^ 2 := by
  have h : radians (-x) = -(radians x) := by unfold radians; ring
  rw [h, neg_div, Real.sin_neg, neg_sq]

/-- Sorting permutes, so membership is preserved. -/
theorem mem_sortRows {x : Row} {l : List Row} : x ∈ sortRows l ↔ x ∈ l :=
  (List.perm_insertionSort rowLe l).mem_iff

/-- Sorting yields the empty list only on the empty list. -/
theorem sortRows_eq_nil_iff {l : List Row} : sortRows l = [] ↔ l = [] := by
  constructor
  · intro h
    have hp : List.Perm (sortRows l) l := List.perm_insertionSort rowLe l
    rw [h] at hp
    exact hp.nil_eq.symm
  · intro h
    subst h
    rfl

/-- When some candidate passes the radius test, the chosen set is the sorted
within-radius list. -/
theorem chooseSet_eq_of_filter_ne_nil (radius : ℚ) (hits : List Row)
    (h : hits.filter (withinRadius radius) ≠ []) :
    chooseSet radius hits = sortRows (hits.filter (withinRadius radius)) := by
  unfold chooseSet
  rw [if_neg]
  simp only [List.isEmpty_iff, sortRows_eq_nil_iff]
  exact h

/-- Every chosen candidate comes from the accumulated hits. -/
theorem chooseSet_subset (radius : ℚ) (hits : List Row) :
    ∀ x ∈ chooseSet radius hits, x ∈ hits := by
  intro x hx
  unfold chooseSet at hx
  by_cases hc : (sortRows (hits.filter (withinRadius radius))).isEmpty = true
  · rw [if_pos hc] at hx
    exact hx
  · rw [if_neg hc] at hx
    exact (List.mem_filter.mp (mem_sortRows.mp hx)).1

/-- Normalizing a non-empty record list that succeeds yields a non-empty
row list. -/
theorem mapRows_ne_nil (pg : String → PGOutcome) (d : ℚ → ℚ → ℚ → ℚ → ℚ)
    (uLat uLon : ℚ) (results : List NPIRecord) (rows : List Row)
    (hne : results ≠ []) (hn : mapRows pg d uLat uLon results = .ok rows) :
    rows ≠ [] := by
  cases results with
  | nil => exact absurd rfl hne
  | cons r rs =>
    rw [mapRows] at hn
    cases h1 : normalizeRecord pg d uLat uLon r with
    | error e => rw [h1] at hn; simp [consRow] at hn
    | ok row =>
      rw [h1] at hn
      cases h2 : mapRows pg d uLat uLon rs with
      | error e => rw [h2] at hn; simp [consRow] at hn
      | ok rows2 =>
        rw [h2] at hn
        simp only [consRow] at hn
        injection hn with hn2
        rw [← hn2]
        exact List.cons_ne_nil _ _

/-- C8: the great-circle distance function returns 0 on identical points and
is symmetric in its two points, for all real coordinate inputs interpreted
as degrees. -/
theorem miles_self_zero_and_symm :
    (∀ lat lon : ℝ, miles lat lon lat lon = 0) ∧
    (∀ a1 b1 a2 b2 : ℝ, miles a1 b1 a2 b2 = miles a2 b2 a1 b1) := by
  constructor
  · intro lat lon
    simp [miles, radians, sub_self]
  · intro a1 b1 a2 b2
    simp only [miles]
    have e1 : a1 - a2 = -(a2 - a1) := by ring
    have e2 : b1 - b2 = -(b2 - b1) := by ring
    have key :
        Real.sin (radians (a2 - a1) / 2) ^ 2 +
          Real.cos (radians a1) * Real.cos (radians a2) *
            Real.sin (radians (b2 - b1) / 2) ^ 2 =
        Real.sin (radians (a1 - a2) / 2) ^ 2 +
          Real.cos (radians a2) * Real.cos (radians a1) *
            Real.sin (radians (b1 - b2) / 2) ^ 2 := by
      rw [e1, e2, sin_radians_neg_half_sq, sin_radians_neg_half_sq]
      ring
    rw [key]

/-- Equal character data means equal strings. -/
theorem strData_inj {a b : String} (h : a.data = b.data) : a = b :=
  String.ext h

/-- The Python string comparison is trichotomous. -/
theorem strLtChars_trichot :
    ∀ a b : List Char, strLtChars a b = true ∨ a = b ∨ strLtChars b a = true := by
  intro a
  induction a with
  | nil =>
    intro b
    cases b with
    | nil => exact Or.inr (Or.inl rfl)
    | cons y ys => exact Or.inl rfl
  | cons x xs ih =>
    intro b
    cases b with
    | nil => exact Or.inr (Or.inr rfl)
    | cons y ys =>
      rcases lt_trichotomy x y with h | h | h
      · left
        simp [strLtChars, h]
      · subst h
        rcases ih ys with h2 | h2 | h2
        · left
          simp [strLtChars, lt_irrefl, h2]
        · subst h2
          exact Or.inr (Or.inl rfl)
        · right; right
          simp [strLtChars, lt_irrefl, h2]
      · right; right
        simp [strLtChars, h]

/-- The Python string comparison is transitive. -/
theorem strLtChars_trans :
    ∀ a b c : List Char, strLtChars a b = true → strLtChars b c = true →
      strLtChars a c = true := by
  intro a
  induction a with
  | nil =>
    intro b c h1 h2
    cases b with
    | nil => exact absurd h1 (by simp [strLtChars])
    | cons y ys =>
      cases c with
      | nil => exact absurd h2 (by simp [strLtChars])
      | cons z zs => simp [strLtChars]
  | cons x xs ih =>
    intro b c h1 h2
    cases b with
    | nil => exact absurd h1 (by simp [strLtChars])
    | cons y ys =>
      cases c with
      | nil => exact absurd h2 (by simp [strLtChars])
      | cons z zs =>
        by_cases hxy : x < y
        · by_cases hyz : y < z
          · simp [strLtChars, lt_trans hxy hyz]
          · by_cases hzy : z < y
            · simp only [strLtChars, if_neg hyz, if_pos hzy] at h2
              exact absurd h2 (by simp)
            · have hyeq : y = z := le_antisymm (not_lt.mp hzy) (not_lt.mp hyz)
              subst hyeq
              simp [strLtChars, hxy]
        · by_cases hyx : y < x
          · simp only [strLtChars, if_neg hxy, if_pos hyx] at h1
            exact absurd h1 (by simp)
          · have hxeq : x = y := le_antisymm (not_lt.mp hyx) (not_lt.mp hxy)
            subst hxeq
            simp only [strLtChars, if_neg hxy] at h1
            by_cases hyz : x < z
            · simp [strLtChars, hyz]
            · by_cases hzy : z < x
              · simp only [strLtChars, if_neg hyz, if_pos hzy] at h2
                exact absurd h2 (by simp)
              · have hxz : x = z := le_antisymm (not_lt.mp hzy) (not_lt.mp hyz)
                subst hxz
                simp only [strLtChars, if_neg hyz] at h2 ⊢
                exact ih ys zs h1 h2

/-- The sort-key comparison is total. -/
theorem rowLe_total (x y : Row) : rowLe x y ∨ rowLe y x := by
  unfold rowLe rowLE
  simp only [Bool.or_eq_true, Bool.and_eq_true, decide_eq_true_eq]
  rcases lt_trichotomy (sortKeyD x) (sortKeyD y) with h | h | h
  · exact Or.inl (Or.inl h)
  · rcases strLtChars_trichot x.name.data y.name.data with h2 | h2 | h2
    · exact Or.inl (Or.inr ⟨h, Or.inl h2⟩)
    · exact Or.inl (Or.inr ⟨h, Or.inr (strData_inj h2)⟩)
    · exact Or.inr (Or.inr ⟨h.symm, Or.inl h2⟩)
  · exact Or.inr (Or.inl h)

/-- The sort-key comparison is transitive. -/
theorem rowLe_trans (x y z : Row) (h1 : rowLe x y) (h2 : rowLe y z) : rowLe x z := by
  unfold rowLe rowLE at h1 h2 ⊢
  simp only [Bool.or_eq_true, Bool.and_eq_true, decide_eq_true_eq] at h1 h2 ⊢
  rcases h1 with h1 | ⟨h1, h1n⟩
  · rcases h2 with h2 | ⟨h2, _⟩
    · exact Or.inl (lt_trans h1 h2)
    · exact Or.inl (h2 ▸ h1)
  · rcases h2 with h2 | ⟨h2, h2n⟩
    · exact Or.inl (h1 ▸ h2)
    · refine Or.inr ⟨h1.trans h2, ?_⟩
      rcases h1n with h1n | h1n
      · rcases h2n with h2n | h2n
        · exact Or.inl (strLtChars_trans _ _ _ h1n h2n)
        · exact Or.inl (h2n ▸ h1n)
      · rcases h2n with h2n | h2n
        · exact Or.inl (h1n ▸ h2n)
        · exact Or.inr (h1n.trans h2n)

/-- The stable sort produces a list sorted under the key comparison. -/
theorem sortRows_sorted (l : List Row) : List.Sorted rowLe (sortRows l) := by
  have ht : IsTotal Row rowLe := ⟨rowLe_total⟩
  have htr : IsTrans Row rowLe := ⟨rowLe_trans⟩
  exact List.sorted_insertionSort rowLe l

/-- Unfolding of the orchestrator on a successful geocode and gather. -/
theorem search_unfold_ok (pg : String → PGOutcome)
    (fetch : String → String → String → NPIOutcome) (d : ℚ → ℚ → ℚ → ℚ → ℚ)
    (uz spec : String) (radius uLat uLon : ℚ) (st : String) (hits : List Row)
    (hg : geocode_zip pg uz = .ok (some (uLat, uLon, st))) (hst : st ≠ "")
    (hh : gatherHits pg fetch d uLat uLon st spec ["NPI-1", "NPI-2"] [] = .ok hits) :
    search_radius_by_state_then_filter pg fetch d uz radius spec
      = .ok (chooseSet radius hits, .stats st hits.length) := by
  simp [search_radius_by_state_then_filter, hg, hst, hh]

/-- C1 counterexample: a search in which at least one candidate is found but
none has a usable distance triggers the radius fallback, yet the returned
list is the raw accumulation order B then A, not the rule-sorted order A
then B, and the returned meta equals the meta of a search in which no
fallback occurred, so it cannot indicate the fallback. -/
theorem radius_fallback_counterexample :
    ((search_radius_by_state_then_filter pgTest fetchFallback dLat "33351" 25 "Cardiology").toOption.map
        (fun r => (r.1.map Row.name, r.1.map Row.distance_mi, r.2)))
      = some (["B", "A"], [none, none], SearchMeta.stats "FL" 2) ∧
    ((search_radius_by_state_then_filter pgTest fetchFallback dLat "33351" 25 "Cardiology").toOption.map
        (fun r => (sortRows r.1).map Row.name)) = some ["A", "B"] ∧
    (["B", "A"] : List String) ≠ ["A", "B"] ∧
    ((search_radius_by_state_then_filter pgTest fetchWithin dLat "33351" 25 "Cardiology").toOption.map
        (fun r => r.2)) = some (SearchMeta.stats "FL" 2) := by
  decide

/-- C1 (amended): when no candidate passes the radius test but at least one
candidate was found overall, the orchestrator returns the unfiltered full
candidate set in its raw accumulation order (not re-sorted, non-empty), and
the meta is the ordinary state and total-raw-count pair carrying no
indication that the fallback occurred. -/
theorem radius_fallback_amended (pg : String → PGOutcome)
    (fetch : String → String → String → NPIOutcome) (d : ℚ → ℚ → ℚ → ℚ → ℚ)
    (uz spec : String) (radius uLat uLon : ℚ) (st : String) (hits : List Row)
    (hg : geocode_zip pg uz = .ok (some (uLat, uLon, st))) (hst : st ≠ "")
    (hh : gatherHits pg fetch d uLat uLon st spec ["NPI-1", "NPI-2"] [] = .ok hits)
    (hne : hits ≠ []) (hfil : hits.filter (withinRadius radius) = []) :
    search_radius_by_state_then_filter pg fetch d uz radius spec
      = .ok (hits, .stats st hits.length) := by
  have h1 := search_unfold_ok pg fetch d uz spec radius uLat uLon st hits hg hst hh
  rw [h1]
  unfold chooseSet
  rw [hfil]
  simp [sortRows]

/-- Witness for the amended C1 theorem at the concrete fallback scenario. -/
theorem radius_fallback_amended_witness :
    search_radius_by_state_then_filter pgTest fetchFallback dLat "33351" 25 "Cardiology"
      = .ok ([rowNZ "B", rowNZ "A"], .stats "FL" 2) :=
  radius_fallback_amended pgTest fetchFallback dLat "33351" "Cardiology" 25 26 (-80) "FL"
    [rowNZ "B", rowNZ "A"] (by decide) (by decide) (by decide) (by decide) (by decide)

/-- C2 counterexample: on the spec example B(12.0), A(3.5), C(missing
distance), D(3.5) with radius 25, the orchestrator returns A, D, B only; the
candidate with missing distance is filtered out by the radius test and does
not appear last as the claim requires. -/
theorem sort_example_counterexample :
    ((search_radius_by_state_then_filter pgTest fetchSort dLat "33351" 25 "Cardiology").toOption.map
        (fun r => r.1.map (fun p => (p.name, p.distance_mi))))
      = some [("A", some (Rat.divInt 7 2)), ("D", some (Rat.divInt 7 2)), ("B", some 12)] ∧
    (["A", "D", "B"] : List String) ≠ ["A", "D", "B", "C"] := by
  decide

/-- C2 (amended): when the within-radius set is non-empty, the chosen
candidate set is that set stably sorted ascending by (distance, name);
candidates with missing distance are excluded by the radius filter and so
never appear in the sorted result; concretely, the spec example yields
A(3.5), D(3.5), B(12.0) with C absent. -/
theorem sort_rule_amended (radius : ℚ) (hits : List Row)
    (hfil : hits.filter (withinRadius radius) ≠ []) :
    chooseSet radius hits = sortRows (hits.filter (withinRadius radius)) ∧
    List.Sorted rowLe (chooseSet radius hits) ∧
    (∀ x ∈ chooseSet radius hits, withinRadius radius x = true) ∧
    ((search_radius_by_state_then_filter pgTest fetchSort dLat "33351" 25 "Cardiology").toOption.map
        (fun r => r.1.map (fun p => (p.name, p.distance_mi))))
      = some [("A", some (Rat.divInt 7 2)), ("D", some (Rat.divInt 7 2)), ("B", some 12)] := by
  have he := chooseSet_eq_of_filter_ne_nil radius hits hfil
  refine ⟨he, ?_, ?_, by decide⟩
  · rw [he]
    exact sortRows_sorted _
  · intro x hx
    rw [he] at hx
    exact (List.mem_filter.mp (mem_sortRows.mp hx)).2

/-- Witness for the amended C2 theorem at a concrete within-radius list. -/
theorem sort_rule_amended_witness :
    chooseSet 25 [rowAt "A" "11111" (Rat.divInt 7 2)] =
      sortRows (List.filter (withinRadius 25) [rowAt "A" "11111" (Rat.divInt 7 2)]) :=
  (sort_rule_amended 25 [rowAt "A" "11111" (Rat.divInt 7 2)] (by decide)).1

/-- C3: sources are tried in order NPI-1 then NPI-2 and querying stops at
the first source returning at least one raw record: when the NPI-1 fetch
returns a non-empty record list that normalizes to rows, the search result
is built from exactly those rows for every behavior of the NPI-2 source,
and every returned candidate comes from those rows. -/
theorem first_source_wins (pg : String → PGOutcome)
    (fetch : String → String → String → NPIOutcome) (d : ℚ → ℚ → ℚ → ℚ → ℚ)
    (uz spec : String) (radius uLat uLon : ℚ) (st : String)
    (results : List NPIRecord) (rows : List Row)
    (hg : geocode_zip pg uz = .ok (some (uLat, uLon, st))) (hst : st ≠ "")
    (hf : fetch spec st "NPI-1" = .ok results) (hne : results ≠ [])
    (hn : mapRows pg d uLat uLon results = .ok rows) :
    search_radius_by_state_then_filter pg fetch d uz radius spec
      = .ok (chooseSet radius rows, .stats st rows.length) ∧
    ∀ x ∈ chooseSet radius rows, x ∈ rows := by
  have hrne : rows ≠ [] := mapRows_ne_nil pg d uLat uLon results rows hne hn
  have hie : results.isEmpty = false := by
    cases results
    · exact absurd rfl hne
    · rfl
  have hsrc : sourceRows pg fetch d uLat uLon st spec "NPI-1" = .ok (some rows) := by
    unfold sourceRows npi_search_state
    rw [hf]
    simp [hie, hn]
  have hre : rows.isEmpty = false := by
    cases rows
    · exact absurd rfl hrne
    · rfl
  have hgath : gatherHits pg fetch d uLat uLon st spec ["NPI-1", "NPI-2"] [] = .ok rows := by
    simp [gatherHits, hsrc, hre]
  exact ⟨search_unfold_ok pg fetch d uz spec radius uLat uLon st rows hg hst hgath,
    chooseSet_subset radius rows⟩

/-- Witness for C3: the concrete sort scenario, in which NPI-2 would return
a different record, yields exactly the normalized NPI-1 rows. -/
theorem first_source_wins_witness :
    (search_radius_by_state_then_filter pgTest fetchSort dLat "33351" 25 "Cardiology"
        = .ok (chooseSet 25 [rowAt "B" "22222" 12, rowAt "A" "11111" (Rat.divInt 7 2),
            rowNZ "C", rowAt "D" "44444" (Rat.divInt 7 2)],
          .stats "FL" 4) ∧
      ∀ x ∈ chooseSet 25 [rowAt "B" "22222" 12, rowAt "A" "11111" (Rat.divInt 7 2),
          rowNZ "C", rowAt "D" "44444" (Rat.divInt 7 2)],
        x ∈ [rowAt "B" "22222" 12, rowAt "A" "11111" (Rat.divInt 7 2),
          rowNZ "C", rowAt "D" "44444" (Rat.divInt 7 2)]) :=
  first_source_wins pgTest fetchSort dLat "33351" "Cardiology" 25 26 (-80) "FL"
    [recNamed "B" "22222", recNamed "A" "11111", recNoZip "C", recNamed "D" "44444"]
    [rowAt "B" "22222" 12, rowAt "A" "11111" (Rat.divInt 7 2),
      rowNZ "C", rowAt "D" "44444" (Rat.divInt 7 2)]
    (by decide) (by decide) (by decide) (by decide) (by decide)

/-- C4 counterexample: a raw record with blank person names whose basic
block carries the organization_name key with an empty-string value
normalizes to an empty display name, not to the placeholder. -/
theorem display_name_counterexample :
    (normalizeRecord pgTest dLat 26 (-80) recOrgEmpty).toOption.map Row.name = some "" ∧
    ("" : String) ≠ "(Provider)" := by
  decide

/-- C4 (amended): display_name is the assembled stripped first+last name
when non-blank; otherwise it is the organization_name value whenever that
key is present, even when that value is blank, and the placeholder
"(Provider)" only when the key is absent; hence display_name is empty
exactly when the assembled name is blank and organization_name is present
and empty.  For the places source the name falls back to "(Lab)" on a
missing or empty raw name and is never the empty string. -/
theorem display_name_amended (b : NPIBasic) (rawName : Option String)
    (d : ℚ → ℚ → ℚ → ℚ → ℚ) (p : PlaceRaw) (lat0 lon0 : ℚ) :
    (pyStrip ((b.first_name.getD "") ++ " " ++ (b.last_name.getD "")) ≠ "" →
      displayName b = pyStrip ((b.first_name.getD "") ++ " " ++ (b.last_name.getD ""))) ∧
    (pyStrip ((b.first_name.getD "") ++ " " ++ (b.last_name.getD "")) = "" →
      displayName b = b.organization_name.getD "(Provider)") ∧
    (displayName b = "" ↔
      (pyStrip ((b.first_name.getD "") ++ " " ++ (b.last_name.getD "")) = "" ∧
        b.organization_name = some "")) ∧
    orElseStr rawName "(Lab)" ≠ "" ∧
    (normalize_google_place d p lat0 lon0).name ≠ "" := by
  have hlab : ∀ o : Option String, orElseStr o "(Lab)" ≠ "" := by
    intro o
    cases o with
    | none => simp [orElseStr]
    | some s =>
      by_cases hs : s = ""
      · simp [orElseStr, hs]
      · simp [orElseStr, hs]
  refine ⟨?_, ?_, ?_, hlab rawName, ?_⟩
  · intro h
    simp [displayName, h]
  · intro h
    simp [displayName, h]
  · unfold displayName
    by_cases h : pyStrip ((b.first_name.getD "") ++ " " ++ (b.last_name.getD "")) = ""
    · simp only [h, ite_not, if_pos rfl]
      cases ho : b.organization_name with
      | none => simp
      | some s => simp [Option.getD]
    · simp [h]
  · show orElseStr p.name "(Lab)" ≠ ""
    exact hlab p.name

/-- Witness for the amended C4 theorem: a present-but-empty raw place name
still yields the non-empty placeholder. -/
theorem display_name_amended_witness :
    orElseStr (some "") "(Lab)" ≠ "" :=
  (display_name_amended ⟨none, none, none⟩ (some "") dLat
    ⟨none, none, none, none, none, none, none⟩ 0 0).2.2.2.1

/-- C5 counterexample: when the underlying postal-code lookup itself raises,
geocode_zip propagates the exception instead of returning not-found, because
the lookup call sits outside the try block. -/
theorem geocode_raise_counterexample :
    geocode_zip pgRaises "00000" = .error () ∧
    geocode_zip pgRaises "00000" ≠ .ok none := by
  exact ⟨rfl, fun h => Except.noConfusion h⟩

/-- C5 (amended): exceptions raised while converting the looked-up record
coordinates, and NaN coordinates, are absorbed: geocode_zip returns
not-found, and the orchestrator then returns an empty candidate list with
the geolocation-failure reason in meta and no exception; but an exception
raised by the underlying lookup call itself propagates out of geocode_zip
(see the counterexample). -/
theorem geocode_miss_absorbed (pg : String → PGOutcome)
    (fetch : String → String → String → NPIOutcome) (d : ℚ → ℚ → ℚ → ℚ → ℚ)
    (uz spec : String) (radius : ℚ) (lat lon : CoordVal) (sc : Option String)
    (hrec : pg uz = .record lat lon sc)
    (hbad : lat.isFiniteVal = false ∨ lon.isFiniteVal = false) :
    geocode_zip pg uz = .ok none ∧
    search_radius_by_state_then_filter pg fetch d uz radius spec
      = .ok ([], .reason "Could not geolocate ZIP.") := by
  have h1 : geocode_zip pg uz = .ok none := by
    unfold geocode_zip
    rw [hrec]
    cases lat <;> cases lon <;> simp_all [CoordVal.isFiniteVal]
  refine ⟨h1, ?_⟩
  simp [search_radius_by_state_then_filter, h1]

/-- Witness for the amended C5 theorem: the unmapped ZIP 00000 yields the
NaN row, geocode_zip returns not-found, and the search returns empty with
the reason set. -/
theorem geocode_miss_absorbed_witness :
    geocode_zip pgTest "00000" = .ok none ∧
    search_radius_by_state_then_filter pgTest fetchFallback dLat "00000" 25 "Cardiology"
      = .ok ([], .reason "Could not geolocate ZIP.") :=
  geocode_miss_absorbed pgTest fetchFallback dLat "00000" "Cardiology" 25
    .nanVal .nanVal none (by decide) (Or.inl (by decide))

/-- C6: a transport failure of the registry source (HTTP error status or
request failure) on the first tried source, or on the second after the
first returned no records, propagates out of the orchestrator as the
distinguished source error; it is not swallowed. -/
theorem source_error_propagates (pg : String → PGOutcome)
    (fetch : String → String → String → NPIOutcome) (d : ℚ → ℚ → ℚ → ℚ → ℚ)
    (uz spec : String) (radius uLat uLon : ℚ) (st : String) (e : SrcErr)
    (hg : geocode_zip pg uz = .ok (some (uLat, uLon, st))) (hst : st ≠ "")
    (hf : fetch spec st "NPI-1" = .fail e ∨
      (fetch spec st "NPI-1" = .ok [] ∧ fetch spec st "NPI-2" = .fail e)) :
    search_radius_by_state_then_filter pg fetch d uz radius spec = .error (.src e) := by
  have hgath : gatherHits pg fetch d uLat uLon st spec ["NPI-1", "NPI-2"] [] = .error (.src e) := by
    rcases hf with h | ⟨h1, h2⟩
    · have hsrc : sourceRows pg fetch d uLat uLon st spec "NPI-1" = .error (.src e) := by
        unfold sourceRows npi_search_state
        rw [h]
      simp [gatherHits, hsrc]
    · have hsrc1 : sourceRows pg fetch d uLat uLon st spec "NPI-1" = .ok none := by
        unfold sourceRows npi_search_state
        rw [h1]
        rfl
      have hsrc2 : sourceRows pg fetch d uLat uLon st spec "NPI-2" = .error (.src e) := by
        unfold sourceRows npi_search_state
        rw [h2]
      simp [gatherHits, hsrc1, hsrc2]
  simp [search_radius_by_state_then_filter, hg, hst, hgath]

/-- Witness for C6: a concrete HTTP failure of the NPI-1 query surfaces as
the source error. -/
theorem source_error_propagates_witness :
    search_radius_by_state_then_filter pgTest fetchHttpFail dLat "33351" 25 "Cardiology"
      = .error (.src .httpError) :=
  source_error_propagates pgTest fetchHttpFail dLat "33351" "Cardiology" 25 26 (-80) "FL"
    .httpError (by decide) (by decide) (Or.inl (by decide))

/-- One unrolled step of the pagination loop. -/
theorem placesLoop_succ_eq (fetch : Option String → PlacesResp) (rem : Nat)
    (token : Option String) :
    placesLoop fetch (rem + 1) token =
      match (fetch token).next_page_token with
      | none => ((fetch token).results, 1, if token.isSome then 1 else 0)
      | some t =>
        if rem = 0 then ((fetch token).results, 1, if token.isSome then 1 else 0)
        else
          ((fetch token).results ++ (placesLoop fetch rem (some t)).1,
            (placesLoop fetch rem (some t)).2.1 + 1,
            (if token.isSome then 1 else 0) + (placesLoop fetch rem (some t)).2.2) := rfl

/-- C7: the paginated places search at the fixed maximum of 3 pages fetches
between 1 and 3 pages, stops early exactly when a page returns no
continuation token, sleeps once before each continuation-token page (one
fewer than the pages fetched), and accumulates the concatenation of the
fetched pages in order. -/
theorem pagination_spec (fetch : Option String → PlacesResp) :
    1 ≤ (places_nearby_labs fetch 3).2.1 ∧
    (places_nearby_labs fetch 3).2.1 ≤ 3 ∧
    ((places_nearby_labs fetch 3).2.1 < 3 →
      pageTok fetch (places_nearby_labs fetch 3).2.1 = none) ∧
    (∀ j, 0 < j → j < (places_nearby_labs fetch 3).2.1 →
      (pageTok fetch j).isSome = true) ∧
    (places_nearby_labs fetch 3).2.2 = (places_nearby_labs fetch 3).2.1 - 1 ∧
    (places_nearby_labs fetch 3).1 =
      ((List.range (places_nearby_labs fetch 3).2.1).map
        (fun i => (fetch (pageTok fetch i)).results)).flatten := by
  have p0 : pageTok fetch 0 = none := rfl
  have p1 : pageTok fetch 1 = (fetch none).next_page_token := rfl
  have p2 : pageTok fetch 2 = (fetch (pageTok fetch 1)).next_page_token := rfl
  rcases h0 : (fetch none).next_page_token with _ | t1
  · have e : places_nearby_labs fetch 3 = ((fetch none).results, 1, 0) := by
      show placesLoop fetch (2 + 1) none = _
      rw [placesLoop_succ_eq, h0]
      rfl
    have epg : (places_nearby_labs fetch 3).2.1 = 1 := by rw [e]
    have esl : (places_nearby_labs fetch 3).2.2 = 0 := by rw [e]
    have eres : (places_nearby_labs fetch 3).1 = (fetch none).results := by rw [e]
    rw [epg, esl, eres]
    refine ⟨by omega, by omega, ?_, ?_, rfl, ?_⟩
    · intro _
      rw [p1, h0]
    · intro j hj hlt
      omega
    · have hr1 : List.range 1 = [0] := rfl
      simp [hr1, p0]
  · rcases h1 : (fetch (some t1)).next_page_token with _ | t2
    · have e2 : placesLoop fetch 2 (some t1) = ((fetch (some t1)).results, 1, 1) := by
        show placesLoop fetch (1 + 1) (some t1) = _
        rw [placesLoop_succ_eq, h1]
        rfl
      have e : places_nearby_labs fetch 3
          = ((fetch none).results ++ (fetch (some t1)).results, 2, 1) := by
        show placesLoop fetch (2 + 1) none = _
        rw [placesLoop_succ_eq, h0]
        simp [e2]
      have epg : (places_nearby_labs fetch 3).2.1 = 2 := by rw [e]
      have esl : (places_nearby_labs fetch 3).2.2 = 1 := by rw [e]
      have eres : (places_nearby_labs fetch 3).1
          = (fetch none).results ++ (fetch (some t1)).results := by rw [e]
      rw [epg, esl, eres]
      refine ⟨by omega, by omega, ?_, ?_, rfl, ?_⟩
      · intro _
        rw [p2, p1, h0, h1]
      · intro j hj hlt
        have hj1 : j = 1 := by omega
        subst hj1
        rw [p1, h0]
        rfl
      · have hr2 : List.range 2 = [0, 1] := rfl
        have hp1 : pageTok fetch 1 = some t1 := by rw [p1, h0]
        simp [hr2, p0, hp1]
    · have e3 : placesLoop fetch 1 (some t2) = ((fetch (some t2)).results, 1, 1) := by
        show placesLoop fetch (0 + 1) (some t2) = _
        rw [placesLoop_succ_eq]
        cases h2 : (fetch (some t2)).next_page_token <;> simp
      have e2 : placesLoop fetch 2 (some t1)
          = ((fetch (some t1)).results ++ (fetch (some t2)).results, 2, 2) := by
        show placesLoop fetch (1 + 1) (some t1) = _
        rw [placesLoop_succ_eq, h1]
        simp [e3]
      have e : places_nearby_labs fetch 3
          = ((fetch none).results ++ ((fetch (some t1)).results ++ (fetch (some t2)).results),
            3, 2) := by
        show placesLoop fetch (2 + 1) none = _
        rw [placesLoop_succ_eq, h0]
        simp [e2]
      have epg : (places_nearby_labs fetch 3).2.1 = 3 := by rw [e]
      have esl : (places_nearby_labs fetch 3).2.2 = 2 := by rw [e]
      have eres : (places_nearby_labs fetch 3).1
          = (fetch none).results
            ++ ((fetch (some t1)).results ++ (fetch (some t2)).results) := by rw [e]
      rw [epg, esl, eres]
      refine ⟨by omega, by omega, ?_, ?_, rfl, ?_⟩
      · intro h
        omega
      · intro j hj hlt
        interval_cases j
        · rw [p1, h0]
          rfl
        · rw [p2, p1, h0, h1]
          rfl
      · have hr3 : List.range 3 = [0, 1, 2] := rfl
        have hp1 : pageTok fetch 1 = some t1 := by rw [p1, h0]
        have hp2 : pageTok fetch 2 = some t2 := by rw [p2, p1, h0, h1]
        simp [hr3, p0, hp1, hp2]

/-- Witness invoking the C7 theorem at a concrete two-page oracle. -/
theorem pagination_spec_witness : (places_nearby_labs fetchPages2 3).2.1 ≤ 3 :=
  (pagination_spec fetchPages2).2.1

/-- C9: selecting a candidate at a valid non-sentinel index stores exactly
the element of the search result at that index, every field (name,
taxonomy, phone, address, npi, zip, distance_mi) unchanged, for the booking
step to read. -/
theorem selection_carries_exact (providers : List Row) (idx : Nat)
    (h1 : 1 ≤ idx) (hlt : idx - 1 < providers.length) :
    selectProvider providers idx = some (providers.get ⟨idx - 1, hlt⟩) ∧
    (selectProvider providers idx).map Row.name
      = some (providers.get ⟨idx - 1, hlt⟩).name ∧
    (selectProvider providers idx).map Row.taxonomy
      = some (providers.get ⟨idx - 1, hlt⟩).taxonomy ∧
    (selectProvider providers idx).map Row.phone
      = some (providers.get ⟨idx - 1, hlt⟩).phone ∧
    (selectProvider providers idx).map Row.address
      = some (providers.get ⟨idx - 1, hlt⟩).address ∧
    (selectProvider providers idx).map Row.npi
      = some (providers.get ⟨idx - 1, hlt⟩).npi ∧
    (selectProvider providers idx).map Row.zip
      = some (providers.get ⟨idx - 1, hlt⟩).zip ∧
    (selectProvider providers idx).map Row.distance_mi
      = some (providers.get ⟨idx - 1, hlt⟩).distance_mi := by
  have h0 : idx ≠ 0 := by omega
  have e : selectProvider providers idx = some (providers.get ⟨idx - 1, hlt⟩) := by
    unfold selectProvider
    rw [if_neg h0]
    rw [List.getElem?_eq_getElem hlt]
    rfl
  rw [e]
  exact ⟨rfl, rfl, rfl, rfl, rfl, rfl, rfl, rfl⟩

/-- Witness for C9 at a concrete two-element result list and index 2. -/
theorem selection_carries_exact_witness :
    selectProvider [rowNZ "B", rowNZ "A"] 2
      = some (([rowNZ "B", rowNZ "A"] : List Row).get ⟨1, by decide⟩) :=
  (selection_carries_exact [rowNZ "B", rowNZ "A"] 2 (by decide) (by decide)).1

/-- C10: a normalized candidate whose ZIP geocodes carries distance_mi equal
to the exact oracle distance rounded to one decimal, and the within-radius
test compares that rounded value to the radius: every candidate whose exact
distance exceeds the radius while its rounded distance does not is
classified as within radius. -/
theorem rounded_distance_radius (pg : String → PGOutcome) (d : ℚ → ℚ → ℚ → ℚ → ℚ)
    (uLat uLon cLat cLon : ℚ) (sc : String) (rec : NPIRecord) (radius : ℚ) (row : Row)
    (hzip : candZip rec ≠ "")
    (hgeo : geocode_zip pg (candZip rec) = .ok (some (cLat, cLon, sc)))
    (hrow : normalizeRecord pg d uLat uLon rec = .ok row)
    (hgt : radius < d uLat uLon cLat cLon)
    (hle : round10 (d uLat uLon cLat cLon) ≤ radius) :
    row.distance_mi = some (round10 (d uLat uLon cLat cLon)) ∧
    withinRadius radius row = true := by
  have hres : resolveLatLon pg (candZip rec) = .ok (some (cLat, cLon, sc)) := by
    unfold resolveLatLon
    rw [if_pos hzip, hgeo]
  have hnr : normalizeRecord pg d uLat uLon rec
      = .ok (buildRow d uLat uLon rec (some (cLat, cLon, sc))) := by
    unfold normalizeRecord
    rw [hres]
  rw [hnr] at hrow
  injection hrow with hrow2
  have hd : row.distance_mi = some (round10 (d uLat uLon cLat cLon)) := by
    rw [← hrow2]
    rfl
  refine ⟨hd, ?_⟩
  unfold withinRadius
  rw [hd]
  simpa using hle

/-- Witness for C10: exact distance 25.04 against radius 25 rounds to 25.0
and passes the radius test. -/
theorem rounded_distance_radius_witness :
    (rowAt "A" "11111" 25).distance_mi
        = some (round10 (d2504 26 (-80) (Rat.divInt 7 2) 0)) ∧
    withinRadius 25 (rowAt "A" "11111" 25) = true :=
  rounded_distance_radius pgTest d2504 26 (-80) (Rat.divInt 7 2) 0 "FL"
    (recNamed "A" "11111") 25 (rowAt "A" "11111" 25)
    (by decide) (by decide) (by decide) (by decide) (by decide)

end Clinic
